import Mathlib

/-!
Verification of the job-lifecycle layer of `lpcjobqueue`
(file `src/lpcjobqueue/cluster.py`).

The development is a shallow embedding of the Python code:

* `LPCCondorJob.start` embeds the `start` coroutine (lines 85-113):
  the inner `sub()` closure runs the scheduler submit transaction,
  catching only `htcondor.HTCondorInternalError` (logged, `None`
  returned); on a truthy `job_id` the id is added to the class-level
  `known_jobs` set, a `weakref.finalize` cleanup hook is registered,
  and the status becomes `running`.

* `LPCCondorJob.close` embeds the `close` coroutine (lines 115-154):
  an optional worker-retirement call, then a loop of at most 30
  one-second polls of `SCHEDD.query` on the cluster id; a query
  returning zero rows triggers the graceful cleanup (discard from
  `known_jobs`, status `closed`, `_event_finished.set()`); after 30
  unsuccessful polls one `SCHEDD.act(Remove, ...)` is issued, deemed
  successful exactly when `TotalSuccess == 1 and TotalChangedAds == 1`.

* Scheduler calls are modelled as `Except CondorError` values: the
  Python code runs them in an executor and awaits them, so an
  exception raised by the call surfaces at the `await` and propagates
  out of `start`/`close`; `CondorError.internalError` plays the role of
  `htcondor.HTCondorInternalError`, `CondorError.otherError` that of
  every other exception.

* `LPCCondorJob.log_directory_startswith_check` embeds the
  log-directory validation in `__init__` (lines 53-58), and
  `LPCCondorCluster.init_scheduler_options` embeds the
  `scheduler_options` handling of `LPCCondorCluster.__init__`
  (lines 174-181), including the `dict.setdefault(scheduler_options)`
  call whose argument, a `dict`, is unhashable in Python.
-/

/-- Job status, after `distributed.core.Status`; the code assigns only
`running` (in `start`) and `closed` (in `close`), but the enum also has
a `failed` member which this file never assigns. -/
inductive Status where
  | created
  | starting
  | running
  | closing
  | closed
  | failed
deriving DecidableEq, Repr

/-- Exceptions a blocking scheduler call can raise:
`internalError` models `htcondor.HTCondorInternalError` (the only type
caught by the `sub()` closure inside `start`), `otherError` models any
other exception. -/
inductive CondorError where
  | internalError (msg : String)
  | otherError (msg : String)
deriving DecidableEq, Repr

/-- Result record of `SCHEDD.act(JobAction.Remove, ...)`: the code reads
the keys `TotalSuccess` and `TotalChangedAds` (the spec calls them the
matched and the changed counts). -/
structure ActResult where
  TotalSuccess : Nat
  TotalChangedAds : Nat
deriving DecidableEq, Repr

deriving instance DecidableEq for Except

/-- The mutable state of one `LPCCondorJob` instance visible to the
claims: `job_id` (`None` before submit and on failed submit),
`known_jobs` (the process-wide class attribute, a set of cluster ids),
`status`, the `_event_finished` flag, and whether the `weakref.finalize`
cleanup hook has been registered. -/
structure JobState where
  job_id : Option Nat
  known_jobs : Finset Nat
  status : Status
  event_finished : Bool
  finalizer_registered : Bool
deriving DecidableEq

/-- The scheduler behaviour one `close` call observes: `query k` is the
outcome of the k-th `SCHEDD.query` poll (the number of matching rows,
or an exception), `act` is the outcome of the single
`SCHEDD.act(Remove, ...)` call. -/
structure SchedModel where
  query : Nat → Except CondorError Nat
  act : Except CondorError ActResult

/-- How `close` ended: graceful (a poll saw zero rows), forced removal
succeeded, or forced removal failed (the error-logged path). -/
inductive CloseOutcome where
  | graceful
  | forcedOk
  | forcedFail
deriving DecidableEq, Repr

/-- Observable events of one `close` call: whether the
`retire_workers` request was sent, how many `SCHEDD.query` polls ran,
how many `SCHEDD.act` remove actions were issued, whether
`logger.error` fired, and the outcome. -/
structure CloseTrace where
  retire_called : Bool
  polls : Nat
  remove_actions : Nat
  error_logged : Bool
  outcome : CloseOutcome
deriving DecidableEq, Repr

namespace LPCCondorJob

/-- Embeds `LPCCondorJob.start` (cluster.py lines 85-113).
`submit` is the outcome of the blocking submit transaction
(`job.queue` inside `SCHEDD.transaction()`, then `SCHEDD.spool`).
The inner `sub()` catches only `HTCondorInternalError`, logging it and
returning `None`; any other exception propagates through the awaited
executor call. Then `if self.job_id:` tests Python truthiness, so both
`None` and `0` skip the success branch; on success the id is added to
`known_jobs`, the finalizer is registered and the status becomes
`running`. -/
def start (submit : Except CondorError Nat) (s : JobState) :
    Except CondorError JobState :=
  match submit with
  | Except.error (CondorError.internalError _) =>
      Except.ok { s with job_id := none }
  | Except.error (CondorError.otherError m) =>
      Except.error (CondorError.otherError m)
  | Except.ok cid =>
      if cid ≠ 0 then
        Except.ok { s with
          job_id := some cid
          known_jobs := insert cid s.known_jobs
          finalizer_registered := true
          status := Status.running }
      else
        Except.ok { s with job_id := some cid }

/-- Embeds the poll loop of `close` (`for _ in range(30): await sleep(1);
if check_gone(): ...`). `q j` is the row count seen by poll j; polling
starts at index `i` with `r` polls remaining. Returns the number of
polls actually run and the index at which zero rows were first seen
(`none` if all `r` polls saw rows). An exception in `SCHEDD.query`
propagates. -/
def close_poll_loop (q : Nat → Except CondorError Nat) :
    Nat → Nat → Except CondorError (Nat × Option Nat)
  | _, 0 => Except.ok (0, none)
  | i, r + 1 =>
      match q i with
      | Except.error e => Except.error e
      | Except.ok rows =>
          if rows = 0 then
            Except.ok (1, some i)
          else
            match close_poll_loop q (i + 1) r with
            | Except.error e => Except.error e
            | Except.ok (n, res) => Except.ok (n + 1, res)

/-- Embeds `self.known_jobs.discard(self.job_id)`: a Python `set.discard`
of the current `job_id` (a no-op when the id is absent or `None`). -/
def discard_job_id : Option Nat → Finset Nat → Finset Nat
  | none, reg => reg
  | some j, reg => reg.erase j

/-- Embeds the cleanup block shared by the graceful and the successful
forced path of `close`: `known_jobs.discard(job_id)`,
`status = Status.closed`, `_event_finished.set()`. -/
def close_cleanup (s : JobState) : JobState :=
  { s with
    known_jobs := discard_job_id s.job_id s.known_jobs
    status := Status.closed
    event_finished := true }

/-- Embeds `LPCCondorJob.close` (cluster.py lines 115-154).
`has_cluster` is `bool(self._cluster)` and gates the `retire_workers`
request. Then at most 30 polls run; the first poll with zero rows takes
the graceful path (cleanup, return). After 30 row-bearing polls, one
`SCHEDD.act(Remove, ...)` is issued; its result is a success exactly
when `TotalSuccess == 1 and TotalChangedAds == 1`, in which case the
same cleanup runs; otherwise `logger.error` fires and the state is left
untouched. Exceptions in `SCHEDD.query` or `SCHEDD.act` propagate. -/
def close (sched : SchedModel) (has_cluster : Bool) (s : JobState) :
    Except CondorError (JobState × CloseTrace) :=
  match close_poll_loop sched.query 1 30 with
  | Except.error e => Except.error e
  | Except.ok (n, some _) =>
      Except.ok (close_cleanup s,
        { retire_called := has_cluster, polls := n, remove_actions := 0,
          error_logged := false, outcome := CloseOutcome.graceful })
  | Except.ok (n, none) =>
      match sched.act with
      | Except.error e => Except.error e
      | Except.ok res =>
          if res.TotalSuccess = 1 ∧ res.TotalChangedAds = 1 then
            Except.ok (close_cleanup s,
              { retire_called := has_cluster, polls := n, remove_actions := 1,
                error_logged := false, outcome := CloseOutcome.forcedOk })
          else
            Except.ok (s,
              { retire_called := has_cluster, polls := n, remove_actions := 1,
                error_logged := true, outcome := CloseOutcome.forcedFail })

/-- Embeds the classmethod `LPCCondorJob._close_job` (lines 156-161),
the `weakref.finalize` target: if `job_id` is still in `known_jobs`,
log a warning, issue `SCHEDD.act(Remove, ...)` (its result ignored, but
an exception it raises propagates, there being no try block), and
discard the id. Returns the new registry and whether the removal action
was issued. -/
def close_job_finalizer (act : Except CondorError ActResult)
    (job_id : Nat) (reg : Finset Nat) :
    Except CondorError (Finset Nat × Bool) :=
  if job_id ∈ reg then
    match act with
    | Except.error e => Except.error e
    | Except.ok _ => Except.ok (reg.erase job_id, true)
  else
    Except.ok (reg, false)

/-- Embeds Python `str.startswith`: `py_startswith s p` is
`s.startswith(p)`, a plain string-prefix test. -/
def py_startswith (s p : String) : Bool :=
  p.data.isPrefixOf s.data

/-- Embeds the log-directory validation of `LPCCondorJob.__init__`
(cluster.py lines 53-58): when `self.log_directory` is truthy (neither
`None` nor empty) and does not `startswith` the home directory string,
a `ValueError` with a descriptive message is raised; otherwise
construction proceeds. -/
def log_directory_startswith_check (homedir : String)
    (log_directory : Option String) : Except String Unit :=
  match log_directory with
  | none => Except.ok ()
  | some d =>
      if d = "" then Except.ok ()
      else if py_startswith d homedir then Except.ok ()
      else Except.error ("log_directory must be a subpath of " ++ homedir
        ++ " or else the schedd cannot write our logs back to the container")

end LPCCondorJob

/-- Python exception classes raised by `LPCCondorCluster.__init__`. -/
inductive PyExc where
  | typeErrorUnhashableDict
  | osError
  | runtimeErrorBind (port : Nat)
deriving DecidableEq, Repr

namespace LPCCondorCluster

/-- Embeds the Python call `d.setdefault(k)` where `k` is itself a
`dict` (cluster.py line 179): `dict.setdefault` first hashes its key
argument, and a `dict` is unhashable, so the call always raises
a TypeError (unhashable type: dict) before touching `d`. -/
def dict_setdefault_dict_key (_d _k : List (String × String)) :
    Except PyExc (List (String × String)) :=
  Except.error PyExc.typeErrorUnhashableDict

/-- Embeds the `scheduler_options` handling of
`LPCCondorCluster.__init__` (cluster.py lines 174-181): a
`scheduler_options` dict `{"host": f"hostname:port"}` is built; when
the caller supplied a `scheduler_options` kwarg, the code calls
`kwargs["scheduler_options"].setdefault(scheduler_options)` (the
generated dict passed as the key); otherwise the generated dict is
installed. Returns the options that reach `super().__init__`, or the
exception that aborts construction. -/
def init_scheduler_options (hostname : String) (port : Nat)
    (kwargs_scheduler_options : Option (List (String × String))) :
    Except PyExc (List (String × String)) :=
  let scheduler_options := [("host", hostname ++ ":" ++ toString port)]
  match kwargs_scheduler_options with
  | some caller_opts =>
      match dict_setdefault_dict_key caller_opts scheduler_options with
      | Except.error e => Except.error e
      | Except.ok _ => Except.ok caller_opts
  | none => Except.ok scheduler_options

end LPCCondorCluster

/-! Concrete fixtures used by the witness theorems. -/

/-- A fresh controller state, as after `Job.__init__` and before `start`. -/
def init_state : JobState :=
  { job_id := none, known_jobs := ∅, status := Status.created,
    event_finished := false, finalizer_registered := false }

/-- A controller state as after a successful submit of cluster id 42. -/
def running_state : JobState :=
  { job_id := some 42, known_jobs := {42}, status := Status.running,
    event_finished := false, finalizer_registered := true }

/-- A scheduler that reports the job gone on the very first poll. -/
def sched_gone_now : SchedModel :=
  { query := fun _ => Except.ok 0, act := Except.ok ⟨1, 1⟩ }

/-- A scheduler that reports one matching row on polls 1 and 2 and the
job gone on poll 3. -/
def sched_gone_at_3 : SchedModel :=
  { query := fun j => if j < 3 then Except.ok 1 else Except.ok 0,
    act := Except.ok ⟨1, 1⟩ }

/-- A scheduler that always reports one matching row; the remove action
reports one matched and one changed record. -/
def sched_never_gone : SchedModel :=
  { query := fun _ => Except.ok 1, act := Except.ok ⟨1, 1⟩ }

/-- A scheduler that always reports one matching row; the remove action
matches and changes nothing. -/
def sched_remove_fails : SchedModel :=
  { query := fun _ => Except.ok 1, act := Except.ok ⟨0, 0⟩ }

/-- A scheduler whose query raises on every poll. -/
def sched_query_raises : SchedModel :=
  { query := fun _ => Except.error (CondorError.otherError "connection refused"),
    act := Except.ok ⟨1, 1⟩ }

namespace LPCCondorJob

/-! Behaviour lemmas about the poll loop and `close`. -/

/-- When every poll from index `i` on sees a nonzero row count, the loop
runs all `r` polls and never sees the job gone. -/
theorem close_poll_loop_none (q : Nat → Except CondorError Nat) :
    ∀ r i, (∀ j, i ≤ j → j < i + r → ∃ m, q j = Except.ok m ∧ m ≠ 0) →
      close_poll_loop q i r = Except.ok (r, none) := by
  intro r
  induction r with
  | zero => intro i _; rfl
  | succ n ih =>
      intro i h
      obtain ⟨m, hm, hm0⟩ := h i (Nat.le_refl i) (by omega)
      have hrec : close_poll_loop q (i + 1) n = Except.ok (n, none) := by
        apply ih
        intro j hj1 hj2
        exact h j (by omega) (by omega)
      simp [close_poll_loop, hm, hm0, hrec]

/-- When polls `i ≤ j < k` see nonzero row counts and poll `k` sees zero
rows, with `k` inside the window, the loop stops at poll `k` having run
`k + 1 - i` polls. -/
theorem close_poll_loop_finds (q : Nat → Except CondorError Nat) (k : Nat) :
    ∀ r i, i ≤ k → k < i + r →
      (∀ j, i ≤ j → j < k → ∃ m, q j = Except.ok m ∧ m ≠ 0) →
      q k = Except.ok 0 →
      close_poll_loop q i r = Except.ok (k + 1 - i, some k) := by
  intro r
  induction r with
  | zero => intro i h1 h2 _ _; omega
  | succ n ih =>
      intro i h1 h2 hrows hk
      rcases Nat.eq_or_lt_of_le h1 with heq | hlt
      · have harith : k + 1 - i = 1 := by omega
        rw [harith]
        simp [close_poll_loop, heq, hk]
      · obtain ⟨m, hm, hm0⟩ := hrows i (Nat.le_refl i) hlt
        have hrec : close_poll_loop q (i + 1) n = Except.ok (k + 1 - (i + 1), some k) := by
          apply ih (i + 1) hlt (by omega)
          · intro j hj1 hj2
            exact hrows j (by omega) hj2
          · exact hk
        simp [close_poll_loop, hm, hm0, hrec]
        omega

/-- The graceful path of `close`: the first zero-row poll is poll `k`
with `1 ≤ k ≤ 30`, so the cleanup runs, `k` polls were made, and no
remove action was issued. -/
theorem close_graceful (sched : SchedModel) (hc : Bool) (s : JobState) (k : Nat)
    (hk1 : 1 ≤ k) (hk30 : k ≤ 30)
    (hbefore : ∀ j, 1 ≤ j → j < k → ∃ m, sched.query j = Except.ok m ∧ m ≠ 0)
    (hat : sched.query k = Except.ok 0) :
    close sched hc s = Except.ok (close_cleanup s,
      { retire_called := hc, polls := k, remove_actions := 0,
        error_logged := false, outcome := CloseOutcome.graceful }) := by
  have hpl : close_poll_loop sched.query 1 30 = Except.ok (k + 1 - 1, some k) :=
    close_poll_loop_finds sched.query k 30 1 hk1 (by omega) hbefore hat
  have harith : k + 1 - 1 = k := by omega
  rw [harith] at hpl
  unfold close
  rw [hpl]

/-- The forced path of `close`: all 30 polls see rows, one remove action
is issued, and its result decides between the cleanup and the
error-logged unchanged state. -/
theorem close_forced (sched : SchedModel) (hc : Bool) (s : JobState) (res : ActResult)
    (hnever : ∀ j, 1 ≤ j → j ≤ 30 → ∃ m, sched.query j = Except.ok m ∧ m ≠ 0)
    (hact : sched.act = Except.ok res) :
    close sched hc s =
      if res.TotalSuccess = 1 ∧ res.TotalChangedAds = 1 then
        Except.ok (close_cleanup s,
          { retire_called := hc, polls := 30, remove_actions := 1,
            error_logged := false, outcome := CloseOutcome.forcedOk })
      else
        Except.ok (s,
          { retire_called := hc, polls := 30, remove_actions := 1,
            error_logged := true, outcome := CloseOutcome.forcedFail }) := by
  have hpl : close_poll_loop sched.query 1 30 = Except.ok (30, none) := by
    apply close_poll_loop_none
    intro j hj1 hj2
    exact hnever j hj1 (by omega)
  unfold close
  rw [hpl, hact]

/-- Any successful `close` either ran one of the two cleanup paths
(outcome not `forcedFail`, state replaced by `close_cleanup`) or the
failed forced path (state untouched). -/
theorem close_ok_cases (sched : SchedModel) (hc : Bool) (s s2 : JobState)
    (tr : CloseTrace)
    (h : close sched hc s = Except.ok (s2, tr)) :
    (tr.outcome ≠ CloseOutcome.forcedFail ∧ s2 = close_cleanup s) ∨
      (tr.outcome = CloseOutcome.forcedFail ∧ s2 = s) := by
  unfold close at h
  split at h
  · exact absurd h (by simp)
  · simp only [Except.ok.injEq, Prod.mk.injEq] at h
    left
    refine ⟨?_, h.1.symm⟩
    rw [← h.2]
    simp
  · split at h
    · exact absurd h (by simp)
    · split at h
      · simp only [Except.ok.injEq, Prod.mk.injEq] at h
        left
        refine ⟨?_, h.1.symm⟩
        rw [← h.2]
        simp
      · simp only [Except.ok.injEq, Prod.mk.injEq] at h
        right
        refine ⟨?_, h.1.symm⟩
        rw [← h.2]

/-- A query exception on the first poll propagates out of `close`. -/
theorem close_query_error (sched : SchedModel) (hc : Bool) (s : JobState)
    (e : CondorError) (h : sched.query 1 = Except.error e) :
    close sched hc s = Except.error e := by
  have hpl : close_poll_loop sched.query 1 30 = Except.error e := by
    show close_poll_loop sched.query 1 (29 + 1) = Except.error e
    simp [close_poll_loop, h]
  unfold close
  rw [hpl]

/-- A remove-action exception after 30 row-bearing polls propagates out
of `close`. -/
theorem close_act_error (sched : SchedModel) (hc : Bool) (s : JobState)
    (e : CondorError)
    (hnever : ∀ j, 1 ≤ j → j ≤ 30 → ∃ m, sched.query j = Except.ok m ∧ m ≠ 0)
    (hact : sched.act = Except.error e) :
    close sched hc s = Except.error e := by
  have hpl : close_poll_loop sched.query 1 30 = Except.ok (30, none) := by
    apply close_poll_loop_none
    intro j hj1 hj2
    exact hnever j hj1 (by omega)
  unfold close
  rw [hpl, hact]

end LPCCondorJob

/-! The claims. -/

/-- C1: for every submit() that succeeds (the scheduler returns a
cluster id, which for HTCondor is nonzero), that id is a member of the
process-wide known_jobs registry immediately after submit() returns,
and it is absent from the registry immediately after a close() call
that completes via the graceful path or the successful forced-removal
path (i.e. any completion other than the failed forced removal). -/
theorem submit_registers_id_and_close_unregisters
    (s0 s1 : JobState) (cid : Nat) (hcid : cid ≠ 0)
    (hstart : LPCCondorJob.start (Except.ok cid) s0 = Except.ok s1)
    (sched : SchedModel) (hc : Bool) :
    cid ∈ s1.known_jobs ∧
      ∀ s2 tr, LPCCondorJob.close sched hc s1 = Except.ok (s2, tr) →
        tr.outcome ≠ CloseOutcome.forcedFail → cid ∉ s2.known_jobs := by
  simp only [LPCCondorJob.start] at hstart
  rw [if_pos hcid] at hstart
  injection hstart with hstart
  subst hstart
  constructor
  · exact Finset.mem_insert_self cid s0.known_jobs
  · intro s2 tr hclose houtcome
    rcases LPCCondorJob.close_ok_cases sched hc _ s2 tr hclose with ⟨_, hs2⟩ | ⟨hff, _⟩
    · subst hs2
      simp [LPCCondorJob.close_cleanup, LPCCondorJob.discard_job_id]
    · exact absurd hff houtcome

/-- Witness for C1 at cluster id 42 with a scheduler that reports the
job gone on the first poll. -/
theorem submit_registers_id_and_close_unregisters_witness :
    42 ∈ running_state.known_jobs ∧
      ∀ s2 tr, LPCCondorJob.close sched_gone_now false running_state = Except.ok (s2, tr) →
        tr.outcome ≠ CloseOutcome.forcedFail → 42 ∉ s2.known_jobs :=
  submit_registers_id_and_close_unregisters init_state running_state 42 (by decide)
    (by decide) sched_gone_now false

/-- C2: for every k with 1 ≤ k ≤ 30, if the scheduler query first
returns zero rows on the k-th poll, close() completes via the graceful
path: the job id is discarded from known_jobs, the status becomes
closed, the finished event is set, exactly k polls ran, and no forced
remove action was issued. -/
theorem graceful_close_within_30_polls (sched : SchedModel) (hc : Bool) (s : JobState)
    (k : Nat) (hk1 : 1 ≤ k) (hk30 : k ≤ 30)
    (hbefore : ∀ j, 1 ≤ j → j < k → ∃ m, sched.query j = Except.ok m ∧ m ≠ 0)
    (hat : sched.query k = Except.ok 0) :
    ∃ s2 tr, LPCCondorJob.close sched hc s = Except.ok (s2, tr) ∧
      s2.known_jobs = LPCCondorJob.discard_job_id s.job_id s.known_jobs ∧
      s2.status = Status.closed ∧
      s2.event_finished = true ∧
      tr.outcome = CloseOutcome.graceful ∧
      tr.polls = k ∧
      tr.remove_actions = 0 :=
  ⟨_, _, LPCCondorJob.close_graceful sched hc s k hk1 hk30 hbefore hat,
    rfl, rfl, rfl, rfl, rfl, rfl⟩

/-- Witness for C2 at k = 3: polls 1 and 2 see one row, poll 3 sees
zero rows, and close() takes the graceful path. -/
theorem graceful_close_within_30_polls_witness :
    ∃ s2 tr, LPCCondorJob.close sched_gone_at_3 false running_state = Except.ok (s2, tr) ∧
      s2.known_jobs = LPCCondorJob.discard_job_id running_state.job_id running_state.known_jobs ∧
      s2.status = Status.closed ∧
      s2.event_finished = true ∧
      tr.outcome = CloseOutcome.graceful ∧
      tr.polls = 3 ∧
      tr.remove_actions = 0 :=
  graceful_close_within_30_polls sched_gone_at_3 false running_state 3 (by decide) (by decide)
    (fun j _ hj3 => ⟨1, by simp [sched_gone_at_3, hj3], by decide⟩)
    (by decide)

/-- C3: when the query never returns zero rows, close() runs exactly 30
polls and then issues exactly one forced remove action, whose success
criterion is exactly one matched record (TotalSuccess, the count the
spec calls matched) and exactly one changed record (TotalChangedAds). -/
theorem forced_close_after_30_polls (sched : SchedModel) (hc : Bool) (s : JobState)
    (res : ActResult)
    (hnever : ∀ j, 1 ≤ j → j ≤ 30 → ∃ m, sched.query j = Except.ok m ∧ m ≠ 0)
    (hact : sched.act = Except.ok res) :
    ∃ s2 tr, LPCCondorJob.close sched hc s = Except.ok (s2, tr) ∧
      tr.polls = 30 ∧
      tr.remove_actions = 1 ∧
      (tr.outcome = CloseOutcome.forcedOk ↔
        (res.TotalSuccess = 1 ∧ res.TotalChangedAds = 1)) := by
  have h := LPCCondorJob.close_forced sched hc s res hnever hact
  by_cases hres : res.TotalSuccess = 1 ∧ res.TotalChangedAds = 1
  · rw [if_pos hres] at h
    exact ⟨_, _, h, rfl, rfl, by simp [hres]⟩
  · rw [if_neg hres] at h
    exact ⟨_, _, h, rfl, rfl, by simp [hres]⟩

/-- Witness for C3: a scheduler that always reports one row; close()
runs 30 polls and one remove action, which reports one matched and one
changed record. -/
theorem forced_close_after_30_polls_witness :
    ∃ s2 tr, LPCCondorJob.close sched_never_gone false running_state = Except.ok (s2, tr) ∧
      tr.polls = 30 ∧
      tr.remove_actions = 1 ∧
      (tr.outcome = CloseOutcome.forcedOk ↔
        ((1 : Nat) = 1 ∧ (1 : Nat) = 1)) :=
  forced_close_after_30_polls sched_never_gone false running_state ⟨1, 1⟩
    (fun j _ _ => ⟨1, rfl, by decide⟩) rfl

/-- C4 counterexample: on a scheduler-internal submit error the code
leaves the status exactly as it was (here Status.created, the fresh
state); it does not assign Status.failed, contradicting the claim that
the controller state becomes Failed. -/
theorem failed_submit_state_not_failed_cex :
    LPCCondorJob.start (Except.error (CondorError.internalError "submit failed"))
        init_state = Except.ok init_state ∧
      init_state.status = Status.created ∧
      Status.created ≠ Status.failed :=
  ⟨rfl, rfl, by decide⟩

/-- C4 amended: if the submit call fails with a scheduler-internal
error, submit() returns no job id, adds no entry to known_jobs, and
registers no cleanup finalizer; the status is left unchanged (in
particular it is never set to Status.failed, which the code never
assigns, nor to Status.running). -/
theorem failed_submit_leaves_state_unchanged (s : JobState) (msg : String) :
    ∃ s1, LPCCondorJob.start (Except.error (CondorError.internalError msg)) s =
        Except.ok s1 ∧
      s1.job_id = none ∧
      s1.known_jobs = s.known_jobs ∧
      s1.finalizer_registered = s.finalizer_registered ∧
      s1.status = s.status :=
  ⟨_, rfl, rfl, rfl, rfl, rfl⟩

/-- C5: when the forced remove action does not report exactly one
matched and one changed record, close() logs an error and returns the
state untouched: the registry, status and finished event are exactly as
before the call, and only one remove action was issued. -/
theorem forced_removal_failure_leaves_state (sched : SchedModel) (hc : Bool)
    (s : JobState) (res : ActResult)
    (hnever : ∀ j, 1 ≤ j → j ≤ 30 → ∃ m, sched.query j = Except.ok m ∧ m ≠ 0)
    (hact : sched.act = Except.ok res)
    (hfail : ¬(res.TotalSuccess = 1 ∧ res.TotalChangedAds = 1)) :
    LPCCondorJob.close sched hc s =
      Except.ok (s,
        { retire_called := hc, polls := 30, remove_actions := 1,
          error_logged := true, outcome := CloseOutcome.forcedFail }) := by
  have h := LPCCondorJob.close_forced sched hc s res hnever hact
  rw [if_neg hfail] at h
  exact h

/-- Witness for C5: the remove action matches and changes nothing, so
close() returns the running state unchanged with the error logged. -/
theorem forced_removal_failure_leaves_state_witness :
    LPCCondorJob.close sched_remove_fails true running_state =
      Except.ok (running_state,
        { retire_called := true, polls := 30, remove_actions := 1,
          error_logged := true, outcome := CloseOutcome.forcedFail }) :=
  forced_removal_failure_leaves_state sched_remove_fails true running_state ⟨0, 0⟩
    (fun j _ _ => ⟨1, rfl, by decide⟩) rfl (by decide)

/-- C6 counterexample: a poll-query failure inside close() is not
caught at the call site; at this concrete input the exception
propagates out of close() as an error, contradicting the claim that no
blocking scheduler-call failure escapes the component boundary. -/
theorem query_failure_propagates_cex :
    LPCCondorJob.close sched_query_raises false running_state =
      Except.error (CondorError.otherError "connection refused") :=
  LPCCondorJob.close_query_error sched_query_raises false running_state
    (CondorError.otherError "connection refused") rfl

/-- C6 amended: only a submit-transaction failure of type
HTCondorInternalError is caught at its call site and converted to log
output (submit() then returns normally with no job id); every other
blocking scheduler-call failure — a non-internal submit error, a
poll-query failure in close(), a remove-action failure in close() after
30 row-bearing polls, or a remove-action failure in the last-resort
finalizer — propagates as an exception past the component boundary. -/
theorem scheduler_failure_handling :
    (∀ s msg, LPCCondorJob.start (Except.error (CondorError.internalError msg)) s =
        Except.ok { s with job_id := none }) ∧
    (∀ s msg, LPCCondorJob.start (Except.error (CondorError.otherError msg)) s =
        Except.error (CondorError.otherError msg)) ∧
    (∀ sched hc s e, sched.query 1 = Except.error e →
        LPCCondorJob.close sched hc s = Except.error e) ∧
    (∀ sched hc s e,
        (∀ j, 1 ≤ j → j ≤ 30 → ∃ m, sched.query j = Except.ok m ∧ m ≠ 0) →
        sched.act = Except.error e →
        LPCCondorJob.close sched hc s = Except.error e) ∧
    (∀ e job_id reg, job_id ∈ reg →
        LPCCondorJob.close_job_finalizer (Except.error e) job_id reg =
          Except.error e) := by
  refine ⟨fun s msg => rfl, fun s msg => rfl,
    fun sched hc s e h => LPCCondorJob.close_query_error sched hc s e h,
    fun sched hc s e h1 h2 => LPCCondorJob.close_act_error sched hc s e h1 h2,
    fun e job_id reg h => ?_⟩
  simp [LPCCondorJob.close_job_finalizer, h]

/-- Witness for the amended C6: a concrete query failure on the first
poll escapes close(). -/
theorem scheduler_failure_handling_witness :
    LPCCondorJob.close sched_query_raises true init_state =
      Except.error (CondorError.otherError "connection refused") :=
  scheduler_failure_handling.2.2.1 sched_query_raises true init_state
    (CondorError.otherError "connection refused") rfl

/-- C7: when the caller passes a scheduler_options mapping to cluster
construction, the code calls dict.setdefault with the generated options
dict as the key; a dict is unhashable, so construction aborts with a
TypeError instead of performing the intended caller-wins merge. -/
theorem caller_scheduler_options_raises_typeerror :
    LPCCondorCluster.init_scheduler_options "lpc101.fnal.gov" 10050
        (some [("host", "mynode.fnal.gov:9999")]) =
      Except.error PyExc.typeErrorUnhashableDict := rfl

/-- C8: constructing with log directory /tmp/logs while home is
/home/user raises a ValueError with a descriptive message, and
constructing with log directory /home/user/logs succeeds; the check
runs in the constructor, before any submit. -/
theorem log_directory_validation :
    LPCCondorJob.log_directory_startswith_check "/home/user" (some "/tmp/logs") =
      Except.error ("log_directory must be a subpath of /home/user or else the schedd cannot write our logs back to the container") ∧
    LPCCondorJob.log_directory_startswith_check "/home/user" (some "/home/user/logs") =
      Except.ok () :=
  ⟨by decide, by decide⟩

/-- C9: when the submit transaction returns cluster id 0, the truthiness
test `if self.job_id:` fails, so the run is treated as a failed
submission: the registry is not extended, no finalizer is registered,
and the status is left unchanged (not set to running). -/
theorem zero_cluster_id_is_failed_submit (s : JobState) :
    ∃ s1, LPCCondorJob.start (Except.ok 0) s = Except.ok s1 ∧
      s1.job_id = some 0 ∧
      s1.known_jobs = s.known_jobs ∧
      s1.finalizer_registered = s.finalizer_registered ∧
      s1.status = s.status := by
  refine ⟨{ s with job_id := some 0 }, ?_, rfl, rfl, rfl, rfl⟩
  simp [LPCCondorJob.start]

/-- C10: the log-directory validation is a plain string test via
str.startswith: every log directory string beginning with the home
directory string is accepted, whether or not it is a true sub-path. -/
theorem log_directory_check_string_test (homedir d : String)
    (h : LPCCondorJob.py_startswith d homedir = true) :
    LPCCondorJob.log_directory_startswith_check homedir (some d) = Except.ok () := by
  unfold LPCCondorJob.log_directory_startswith_check
  by_cases hd : d = ""
  · simp [hd]
  · simp [hd, h]

/-- Witness for C10: /home/username is accepted with home /home/user,
although it is not a sub-path of it. -/
theorem log_directory_check_string_test_witness :
    LPCCondorJob.log_directory_startswith_check "/home/user" (some "/home/username") =
      Except.ok () :=
  log_directory_check_string_test "/home/user" "/home/username" (by decide)
